import Mathlib

/-!
Verification of the session-management core of the araliya-bot repository
(`hf_space/app/services/session_manager.py` and the chat endpoint of
`hf_space/app/api/routes.py`).

Modelling conventions:
* Wall-clock readings of `datetime.utcnow()` are modelled by an explicit
  `now : Nat` parameter (abstract time units); the two consecutive `utcnow()`
  calls inside one operation are identified.
* The `uuid.uuid4()` generator is modelled by an explicit `fresh : String`
  parameter; its uniqueness becomes an explicit hypothesis where needed.
* The Python dict `self._sessions` is modelled as an association list
  `List (String × Session)` whose keys are unique (insertion order is kept,
  as Python dicts keep it); mutation becomes explicit state passing.
* A raised `KeyError` is modelled by `Except.error` carrying the store state
  at the moment the exception escapes (Python keeps side effects already
  performed when an exception is raised).
* Python truthiness of an optional string (`if session_id:`) is modelled by
  `truthy`: `None` and `""` are falsy, every other string is truthy.
-/

/-- One chat message (`app/models/chat.py`, class `ChatMessage`); the
`timestamp` field defaults to the current time at construction. -/
structure ChatMessage where
  role : String
  content : String
  timestamp : Nat
deriving Repr, DecidableEq

/-- One session record: the dict value stored in `SessionManager._sessions`
(`created_at`, `last_activity`, `messages`). -/
structure Session where
  created_at : Nat
  last_activity : Nat
  messages : List ChatMessage
deriving Repr, DecidableEq

/-- The `SessionManager._sessions` dict: id keyed session records. -/
abbrev Store := List (String × Session)

/-- Dict key lookup `self._sessions[sid]` / membership `sid in self._sessions`. -/
def lookupSession : Store → String → Option Session
  | [], _ => none
  | (k, v) :: rest, sid => if k = sid then some v else lookupSession rest sid

/-- Dict key assignment `self._sessions[sid] = s`: overwrite in place when the
key is present, append otherwise (Python dicts keep insertion order). -/
def setSession : Store → String → Session → Store
  | [], sid, s => [(sid, s)]
  | (k, v) :: rest, sid, s =>
      if k = sid then (sid, s) :: rest else (k, v) :: setSession rest sid s

/-- Dict key deletion `del self._sessions[sid]` (removes the unique entry). -/
def eraseSession : Store → String → Store
  | [], _ => []
  | (k, v) :: rest, sid =>
      if k = sid then rest else (k, v) :: eraseSession rest sid

/-- The keys of the store, in insertion order. -/
def storeKeys (st : Store) : List String := st.map Prod.fst

/-- Python truthiness of `Optional[str]`: `None` and `""` are falsy. -/
def truthy : Option String → Bool
  | none => false
  | some s => s ≠ ""

namespace SessionManager

/-- `SessionManager.create_session` (session_manager.py lines 55-80).
`fresh` stands for the `uuid.uuid4()` string `generate_session_id` would
return. The guard is Python `if session_id and session_id in self._sessions`,
and the fallback id is Python `session_id or self.generate_session_id()`. -/
def create_session (st : Store) (now : Nat) (fresh : String)
    (session_id : Option String) : String × Store :=
  if truthy session_id ∧ (lookupSession st (session_id.getD "")).isSome then
    -- Update last activity for existing session
    let sid := session_id.getD ""
    match lookupSession st sid with
    | some s => (sid, setSession st sid { s with last_activity := now })
    | none => (sid, st)
  else
    -- Create new session
    let new_session_id := if truthy session_id then session_id.getD "" else fresh
    (new_session_id, setSession st new_session_id ⟨now, now, []⟩)

/-- Python tail slice `l[-n:]`: for `n > 0` the last `min n (length l)`
elements; for `n = 0`, `l[-0:]` is `l[0:]`, the whole list. -/
def pySliceLast {α : Type} (l : List α) (n : Nat) : List α :=
  if n = 0 then l else l.drop (l.length - n)

/-- `SessionManager.get_conversation_history` (lines 82-98); `window` is
`self.settings.max_conversation_history`. The method performs no writes, so
the store comes back as the second component. -/
def get_conversation_history (st : Store) (window : Nat) (session_id : String) :
    List ChatMessage × Store :=
  match lookupSession st session_id with
  | none => ([], st)
  | some s => (pySliceLast s.messages window, st)

/-- `SessionManager.add_message` (lines 100-119); `window` is
`self.settings.max_conversation_history`. When the id is absent the method
first calls `create_session session_id`; the subsequent index
`self._sessions[session_id]` raises `KeyError` when the key is still absent
(the error value carries the store at that point). -/
def add_message (st : Store) (now : Nat) (fresh : String) (window : Nat)
    (session_id : String) (message : ChatMessage) : Except Store Store :=
  let st1 := if (lookupSession st session_id).isSome then st
             else (create_session st now fresh (some session_id)).2
  match lookupSession st1 session_id with
  | none => .error st1
  | some s =>
      let msgs := s.messages ++ [message]
      -- append, set last_activity, then trim when the length exceeds 2 × window
      if msgs.length > window * 2 then
        .ok (setSession st1 session_id
              { s with messages := pySliceLast msgs window, last_activity := now })
      else
        .ok (setSession st1 session_id { s with messages := msgs, last_activity := now })

/-- `SessionManager.add_user_message` (lines 121-124): builds a
`ChatMessage(role="user", content=content)` whose timestamp defaults to now. -/
def add_user_message (st : Store) (now : Nat) (fresh : String) (window : Nat)
    (session_id : String) (content : String) : Except Store Store :=
  add_message st now fresh window session_id ⟨"user", content, now⟩

/-- `SessionManager.add_assistant_message` (lines 126-129). -/
def add_assistant_message (st : Store) (now : Nat) (fresh : String) (window : Nat)
    (session_id : String) (content : String) : Except Store Store :=
  add_message st now fresh window session_id ⟨"assistant", content, now⟩

/-- `SessionManager.session_exists` (lines 131-134). -/
def session_exists (st : Store) (session_id : String) : Bool :=
  (lookupSession st session_id).isSome

/-- The record returned by `SessionManager.get_session_info`. -/
structure SessionInfo where
  session_id : String
  created_at : Nat
  last_activity : Nat
  message_count : Nat
deriving Repr, DecidableEq

/-- `SessionManager.get_session_info` (lines 136-148). -/
def get_session_info (st : Store) (session_id : String) : Option SessionInfo :=
  match lookupSession st session_id with
  | none => none
  | some s => some ⟨session_id, s.created_at, s.last_activity, s.messages.length⟩

/-- The expiry test of `cleanup_expired_sessions`:
`current_time - session_data["last_activity"] > timeout_delta`. -/
def isExpired (now timeout : Nat) (kv : String × Session) : Bool :=
  timeout < now - kv.2.last_activity

/-- `SessionManager.cleanup_expired_sessions` (lines 150-172); `timeout` is
`session_timeout_minutes` in the same time units as `now`. The method first
collects the ids of expired sessions, then deletes each, and returns their
number. -/
def cleanup_expired_sessions (st : Store) (now : Nat) (timeout : Nat) :
    Nat × Store :=
  let expired := (st.filter (isExpired now timeout)).map Prod.fst
  (expired.length, expired.foldl eraseSession st)

/-- `SessionManager.get_active_session_count` (lines 174-177). -/
def get_active_session_count (st : Store) : Nat := st.length

/-- `SessionManager.clear_session` (lines 179-194). -/
def clear_session (st : Store) (session_id : String) : Bool × Store :=
  if (lookupSession st session_id).isSome then
    (true, eraseSession st session_id)
  else
    (false, st)

end SessionManager

/-- Request body of the chat endpoint (`app/models/chat.py`, `ChatRequest`). -/
structure ChatRequest where
  message : String
  session_id : Option String
deriving Repr, DecidableEq

/-- Response body of the chat endpoint (`app/models/chat.py`, `ChatResponse`),
metadata elided. -/
structure ChatResponse where
  message : String
  session_id : String
  timestamp : Nat
deriving Repr, DecidableEq

/-- Outcome of one call to the chat endpoint: a response or an
`HTTPException` with the given status code. -/
inductive ChatOutcome where
  | ok (resp : ChatResponse)
  | httpError (code : Nat)
deriving Repr, DecidableEq

namespace Routes

open SessionManager

/-- `chat_endpoint` (`app/api/routes.py` lines 91-152). `maxSessions` is
`settings.max_concurrent_sessions`, `window` is
`settings.max_conversation_history`. The external generation call
`openai_service.generate_response` is abstracted by `genResult` (its reply
text on success); the RAG context lookup touches no session state and is
elided. A `KeyError` escaping a store call is caught by the generic
`except Exception` handler and becomes a 500. -/
def chat_endpoint (st : Store) (now : Nat) (fresh : String)
    (maxSessions window : Nat) (req : ChatRequest)
    (genResult : Except String String) : ChatOutcome × Store :=
  -- Check concurrent session limit
  if get_active_session_count st ≥ maxSessions then
    (.httpError 429, st)
  else
    -- Create or get session
    let r := create_session st now fresh req.session_id
    let session_id := r.1
    let st1 := r.2
    -- Get conversation history (read-only)
    let st1' := (get_conversation_history st1 window session_id).2
    -- Add user message to session
    match add_user_message st1' now fresh window session_id req.message with
    | .error stE => (.httpError 500, stE)
    | .ok st2 =>
        -- Generate AI response (external call)
        match genResult with
        | .error _ => (.httpError 500, st2)
        | .ok reply =>
            -- Add AI response to session
            match add_assistant_message st2 now fresh window session_id reply with
            | .error stE => (.httpError 500, stE)
            | .ok st3 => (.ok ⟨reply, session_id, now⟩, st3)

end Routes

/-! ### Basic lemmas about the store operations -/

@[simp] theorem storeKeys_nil : storeKeys ([] : Store) = [] := rfl

@[simp] theorem storeKeys_cons (k : String) (v : Session) (rest : Store) :
    storeKeys ((k, v) :: rest) = k :: storeKeys rest := rfl

theorem lookupSession_setSession_self (st : Store) (k : String) (s : Session) :
    lookupSession (setSession st k s) k = some s := by
  induction st with
  | nil => simp [setSession, lookupSession]
  | cons kv rest ih =>
      obtain ⟨k0, v0⟩ := kv
      by_cases h : k0 = k <;> simp [setSession, lookupSession, h, ih]

theorem lookupSession_setSession_ne (st : Store) (k k2 : String) (s : Session)
    (h : k ≠ k2) : lookupSession (setSession st k s) k2 = lookupSession st k2 := by
  induction st with
  | nil => simp [setSession, lookupSession, h]
  | cons kv rest ih =>
      obtain ⟨k0, v0⟩ := kv
      by_cases h0 : k0 = k
      · subst h0; simp [setSession, lookupSession, h]
      · simp [setSession, lookupSession, h0, ih]

theorem mem_setSession {st : Store} {k : String} {s : Session} {kv : String × Session}
    (h : kv ∈ setSession st k s) : kv = (k, s) ∨ kv ∈ st := by
  induction st with
  | nil => simpa [setSession] using h
  | cons kv0 rest ih =>
      obtain ⟨k0, v0⟩ := kv0
      by_cases h0 : k0 = k
      · subst h0
        rcases List.mem_cons.mp (by simpa [setSession] using h) with h | h
        · exact Or.inl h
        · exact Or.inr (List.mem_cons_of_mem _ h)
      · rcases List.mem_cons.mp (by simpa [setSession, h0] using h) with h | h
        · exact Or.inr (List.mem_cons.mpr (Or.inl h))
        · rcases ih h with h | h
          · exact Or.inl h
          · exact Or.inr (List.mem_cons_of_mem _ h)

theorem mem_eraseSession {st : Store} {k : String} {kv : String × Session}
    (h : kv ∈ eraseSession st k) : kv ∈ st := by
  induction st with
  | nil => simp [eraseSession] at h
  | cons kv0 rest ih =>
      obtain ⟨k0, v0⟩ := kv0
      by_cases h0 : k0 = k
      · exact List.mem_cons_of_mem _ (by simpa [eraseSession, h0] using h)
      · rcases List.mem_cons.mp (by simpa [eraseSession, h0] using h) with h | h
        · exact List.mem_cons.mpr (Or.inl h)
        · exact List.mem_cons_of_mem _ (ih h)

theorem lookupSession_eq_none_of_not_mem_keys {st : Store} {k : String}
    (h : k ∉ storeKeys st) : lookupSession st k = none := by
  induction st with
  | nil => rfl
  | cons kv rest ih =>
      obtain ⟨k0, v0⟩ := kv
      have h1 : ¬ k0 = k := by
        intro e; subst e; exact h (List.mem_cons_self _ _)
      have h2 : k ∉ storeKeys rest := fun m => h (List.mem_cons_of_mem _ m)
      simp [lookupSession, h1, ih h2]

theorem lookupSession_isSome_iff {st : Store} {k : String} :
    (lookupSession st k).isSome = true ↔ k ∈ storeKeys st := by
  induction st with
  | nil => simp [lookupSession]
  | cons kv rest ih =>
      obtain ⟨k0, v0⟩ := kv
      by_cases h : k0 = k
      · subst h; simp [lookupSession]
      · have h2 : ¬ k = k0 := fun e => h e.symm
        simp [lookupSession, h, h2, ih]

theorem lookupSession_eraseSession_ne (st : Store) (k k2 : String) (h : k ≠ k2) :
    lookupSession (eraseSession st k) k2 = lookupSession st k2 := by
  induction st with
  | nil => rfl
  | cons kv rest ih =>
      obtain ⟨k0, v0⟩ := kv
      by_cases h0 : k0 = k
      · subst h0; simp [eraseSession, lookupSession, h]
      · simp [eraseSession, lookupSession, h0, ih]

theorem lookupSession_eraseSession_self (st : Store) (k : String)
    (h : (storeKeys st).Nodup) : lookupSession (eraseSession st k) k = none := by
  induction st with
  | nil => rfl
  | cons kv rest ih =>
      obtain ⟨k0, v0⟩ := kv
      rw [storeKeys_cons, List.nodup_cons] at h
      by_cases h0 : k0 = k
      · subst h0
        simpa [eraseSession] using lookupSession_eq_none_of_not_mem_keys h.1
      · simpa [eraseSession, lookupSession, h0] using ih h.2

/-! ### Lemmas about the Python tail slice -/

theorem pySliceLast_suffix {α : Type} (l : List α) (n : Nat) :
    SessionManager.pySliceLast l n <:+ l := by
  unfold SessionManager.pySliceLast
  split
  · exact List.suffix_refl l
  · exact List.drop_suffix _ l

theorem length_pySliceLast {α : Type} (l : List α) {n : Nat} (h : 0 < n) :
    (SessionManager.pySliceLast l n).length = min l.length n := by
  unfold SessionManager.pySliceLast
  rw [if_neg (by omega : ¬ n = 0), List.length_drop]
  omega

theorem getLast?_pySliceLast_concat {α : Type} (l : List α) (a : α) {n : Nat}
    (h : 0 < n) :
    (SessionManager.pySliceLast (l ++ [a]) n).getLast? = some a := by
  unfold SessionManager.pySliceLast
  rw [if_neg (by omega : ¬ n = 0)]
  have hk : (l ++ [a]).length - n ≤ l.length := by simp; omega
  rw [List.drop_append_of_le_length hk, List.getLast?_concat]

/-! ### Lemmas about the collect-then-delete sweep -/

theorem foldl_eraseSession_cons (k : String) (v : Session) :
    ∀ (ids : List String) (rest : Store), k ∉ ids →
      ids.foldl eraseSession ((k, v) :: rest) =
        (k, v) :: ids.foldl eraseSession rest := by
  intro ids
  induction ids with
  | nil => intro rest _; rfl
  | cons i ids ih =>
      intro rest h
      have h1 : ¬ k = i := fun e => h (by simp [e])
      have h2 : k ∉ ids := fun m => h (List.mem_cons_of_mem _ m)
      simp only [List.foldl_cons]
      rw [show eraseSession ((k, v) :: rest) i = (k, v) :: eraseSession rest i from
        by simp [eraseSession, h1]]
      exact ih (eraseSession rest i) h2

theorem mem_keys_of_mem_keys_filter {p : String × Session → Bool} {st : Store}
    {x : String} (h : x ∈ storeKeys (st.filter p)) : x ∈ storeKeys st := by
  rcases List.mem_map.mp h with ⟨kv, hkv, rfl⟩
  exact List.mem_map.mpr ⟨kv, (List.mem_filter.mp hkv).1, rfl⟩

theorem foldl_erase_filter (p : String × Session → Bool) :
    ∀ (st : Store), (storeKeys st).Nodup →
      ((st.filter p).map Prod.fst).foldl eraseSession st =
        st.filter (fun kv => ! p kv) := by
  intro st
  induction st with
  | nil => intro _; rfl
  | cons kv rest ih =>
      intro h
      obtain ⟨k, v⟩ := kv
      rw [storeKeys_cons, List.nodup_cons] at h
      by_cases hp : p (k, v)
      · rw [List.filter_cons_of_pos hp, List.map_cons, List.foldl_cons]
        rw [show eraseSession ((k, v) :: rest) k = rest from by simp [eraseSession]]
        rw [List.filter_cons_of_neg (by simp [hp])]
        exact ih h.2
      · rw [List.filter_cons_of_neg hp, List.filter_cons_of_pos (by simp [hp])]
        have hnotin : k ∉ (rest.filter p).map Prod.fst :=
          fun m => h.1 (mem_keys_of_mem_keys_filter m)
        rw [foldl_eraseSession_cons k v _ rest hnotin, ih h.2]

theorem lookupSession_filter_some (p : String × Session → Bool) :
    ∀ (st : Store), (storeKeys st).Nodup → ∀ (sid : String) (s : Session),
      lookupSession st sid = some s →
      lookupSession (st.filter p) sid = if p (sid, s) then some s else none := by
  intro st
  induction st with
  | nil => intro _ sid s h; cases h
  | cons kv rest ih =>
      intro hnd sid s h
      obtain ⟨k, v⟩ := kv
      rw [storeKeys_cons, List.nodup_cons] at hnd
      by_cases hk : k = sid
      · subst hk
        have hv : v = s := by simpa [lookupSession] using h
        subst hv
        by_cases hp : p (k, v)
        · rw [List.filter_cons_of_pos hp]
          simp [lookupSession, hp]
        · rw [List.filter_cons_of_neg hp]
          have hnm : k ∉ storeKeys (rest.filter p) :=
            fun m => hnd.1 (mem_keys_of_mem_keys_filter m)
          rw [lookupSession_eq_none_of_not_mem_keys hnm, if_neg hp]
      · have h2 : lookupSession rest sid = some s := by
          simpa [lookupSession, hk] using h
        by_cases hp : p (k, v)
        · rw [List.filter_cons_of_pos hp]
          simpa [lookupSession, hk] using ih hnd.2 sid s h2
        · rw [List.filter_cons_of_neg hp]
          exact ih hnd.2 sid s h2

theorem lookupSession_filter_none (p : String × Session → Bool) (st : Store)
    (sid : String) (h : lookupSession st sid = none) :
    lookupSession (st.filter p) sid = none := by
  refine lookupSession_eq_none_of_not_mem_keys fun m => ?_
  have hm : sid ∈ storeKeys st := mem_keys_of_mem_keys_filter m
  have hs : (lookupSession st sid).isSome = true := lookupSession_isSome_iff.mpr hm
  rw [h] at hs
  cases hs

/-! ### Characterization of create_session and add_message -/

namespace SessionManager

theorem create_session_touch (st : Store) (now : Nat) (fresh : String)
    (sid : String) (s : Session) (hsid : sid ≠ "")
    (h : lookupSession st sid = some s) :
    create_session st now fresh (some sid) =
      (sid, setSession st sid { s with last_activity := now }) := by
  unfold create_session
  rw [if_pos (by simp [truthy, hsid, Option.getD, h])]
  simp [Option.getD, h]

theorem create_session_new (st : Store) (now : Nat) (fresh : String)
    (sid : String) (hsid : sid ≠ "") (h : lookupSession st sid = none) :
    create_session st now fresh (some sid) =
      (sid, setSession st sid ⟨now, now, []⟩) := by
  unfold create_session
  rw [if_neg (by simp [truthy, hsid, Option.getD, h])]
  simp [truthy, hsid, Option.getD]

theorem create_session_falsy (st : Store) (now : Nat) (fresh : String)
    (session_id : Option String) (h : truthy session_id = false) :
    create_session st now fresh session_id =
      (fresh, setSession st fresh ⟨now, now, []⟩) := by
  unfold create_session
  rw [if_neg (by simp [h])]
  simp [h]

/-- The id `create_session` returns is always present in the store it
returns (`self._sessions[new_session_id]` was just written, or the existing
entry was just touched). -/
theorem create_session_returns_valid (st : Store) (now : Nat) (fresh : String)
    (session_id : Option String) :
    (lookupSession (create_session st now fresh session_id).2
      (create_session st now fresh session_id).1).isSome = true := by
  unfold create_session
  by_cases hc : truthy session_id = true ∧
      (lookupSession st (session_id.getD "")).isSome = true
  · rw [if_pos (by exact_mod_cast hc)]
    rcases Option.isSome_iff_exists.mp hc.2 with ⟨s, hs⟩
    simp only [hs]
    simp [lookupSession_setSession_self]
  · rw [if_neg (by exact_mod_cast hc)]
    simp [lookupSession_setSession_self]

/-- When `fresh` is nonempty, so is the id `create_session` returns. -/
theorem create_session_returns_nonempty (st : Store) (now : Nat) (fresh : String)
    (session_id : Option String) (hf : fresh ≠ "") :
    (create_session st now fresh session_id).1 ≠ "" := by
  unfold create_session
  by_cases hc : truthy session_id = true ∧
      (lookupSession st (session_id.getD "")).isSome = true
  · rw [if_pos (by exact_mod_cast hc)]
    have ht : session_id.getD "" ≠ "" := by
      cases session_id with
      | none => simp [truthy] at hc
      | some s => simpa [truthy, Option.getD] using hc.1
    cases hl : lookupSession st (session_id.getD "") <;> simpa [hl] using ht
  · rw [if_neg (by exact_mod_cast hc)]
    by_cases ht : truthy session_id = true
    · have hp : session_id.getD "" ≠ "" := by
        cases session_id with
        | none => simp [truthy] at ht
        | some s => simpa [truthy, Option.getD] using ht
      simpa [ht] using hp
    · simp only [Bool.not_eq_true] at ht
      simpa [ht] using hf

end SessionManager

theorem setSession_setSession (st : Store) (k : String) (s1 s2 : Session) :
    setSession (setSession st k s1) k s2 = setSession st k s2 := by
  induction st with
  | nil => simp [setSession]
  | cons kv rest ih =>
      obtain ⟨k0, v0⟩ := kv
      by_cases h : k0 = k
      · subst h; simp [setSession]
      · simp [setSession, h, ih]

namespace SessionManager

theorem add_message_existing (st : Store) (now : Nat) (fresh : String)
    (window : Nat) (sid : String) (msg : ChatMessage) (s : Session)
    (h : lookupSession st sid = some s) :
    add_message st now fresh window sid msg =
      .ok (setSession st sid
        { s with
          messages := if (s.messages ++ [msg]).length > window * 2
                      then pySliceLast (s.messages ++ [msg]) window
                      else s.messages ++ [msg],
          last_activity := now }) := by
  unfold add_message
  simp only [h, Option.isSome_some, if_true]
  by_cases hl : window * 2 < s.messages.length + 1
  · simp [hl]
  · simp [hl]

theorem add_message_absent (st : Store) (now : Nat) (fresh : String)
    (window : Nat) (sid : String) (msg : ChatMessage) (hsid : sid ≠ "")
    (h : lookupSession st sid = none) :
    add_message st now fresh window sid msg =
      .ok (setSession st sid ⟨now, now, [msg]⟩) := by
  unfold add_message
  simp only [h, Option.isSome_none, Bool.false_eq_true, if_false]
  rw [create_session_new st now fresh sid hsid h]
  simp only [lookupSession_setSession_self]
  by_cases hw : window = 0
  · subst hw
    simp [pySliceLast, setSession_setSession]
  · have : ¬ (([] ++ [msg] : List ChatMessage).length > window * 2) := by
      simp; omega
    simp only [this, if_false]
    simp [setSession_setSession]

/-- `add_message` with the empty-string id on a store not containing the
empty key: the ensure-exists step creates a session under the generated id
`fresh`, and the subsequent dict index raises `KeyError`. -/
theorem add_message_empty_id (st : Store) (now : Nat) (fresh : String)
    (window : Nat) (msg : ChatMessage) (hf : fresh ≠ "")
    (h : lookupSession st "" = none) :
    add_message st now fresh window "" msg =
      .error (setSession st fresh ⟨now, now, []⟩) := by
  unfold add_message
  simp only [h, Option.isSome_none, Bool.false_eq_true, if_false]
  rw [create_session_falsy st now fresh (some "") (by simp [truthy])]
  rw [lookupSession_setSession_ne st fresh "" ⟨now, now, []⟩ hf, h]

end SessionManager

theorem lookupSession_mem {st : Store} {k : String} {s : Session}
    (h : lookupSession st k = some s) : (k, s) ∈ st := by
  induction st with
  | nil => cases h
  | cons kv rest ih =>
      obtain ⟨k0, v0⟩ := kv
      by_cases h0 : k0 = k
      · subst h0
        have : v0 = s := by simpa [lookupSession] using h
        subst this
        exact List.mem_cons_self _ _
      · exact List.mem_cons_of_mem _ (ih (by simpa [lookupSession, h0] using h))

/-- `get_conversation_history` performs no dict writes: the store it returns
is the store it was given. -/
theorem get_conversation_history_snd (st : Store) (window : Nat) (sid : String) :
    (SessionManager.get_conversation_history st window sid).2 = st := by
  unfold SessionManager.get_conversation_history
  cases lookupSession st sid <;> rfl

/-! ### Claim theorems -/

/-- C8: for every session id, `get_conversation_history` leaves the store
entirely unchanged: it does not create a session for an unknown id, and for
an existing session it modifies neither `last_activity`, nor `created_at`,
nor the stored messages. -/
theorem C8_get_history_leaves_store_unchanged (st : Store) (window : Nat)
    (sid : String) :
    (SessionManager.get_conversation_history st window sid).2 = st ∧
    (∀ sid2 : String,
      lookupSession (SessionManager.get_conversation_history st window sid).2 sid2 =
        lookupSession st sid2) ∧
    (∀ sid2 : String,
      SessionManager.session_exists
          (SessionManager.get_conversation_history st window sid).2 sid2 =
        SessionManager.session_exists st sid2) := by
  refine ⟨get_conversation_history_snd st window sid, ?_, ?_⟩ <;>
    intro sid2 <;> rw [get_conversation_history_snd st window sid]

/-- C10: whenever the active session count is at least
`max_concurrent_sessions`, the chat endpoint answers 429 and leaves the store
untouched, for every request — including one carrying an existing session id. -/
theorem C10_admission_control (st : Store) (now : Nat) (fresh : String)
    (maxSessions window : Nat) (req : ChatRequest)
    (genResult : Except String String)
    (h : maxSessions ≤ SessionManager.get_active_session_count st) :
    Routes.chat_endpoint st now fresh maxSessions window req genResult =
      (.httpError 429, st) := by
  unfold Routes.chat_endpoint
  rw [if_pos h]

/-- C10 witness: a one-session store at capacity 1 rejects a request that
carries that very session's id, leaving the store unchanged. -/
theorem C10_admission_control_witness :
    Routes.chat_endpoint [("a", ⟨0, 0, []⟩)] 5 "f" 1 20 ⟨"hi", some "a"⟩
        (.ok "reply") = (.httpError 429, [("a", ⟨0, 0, []⟩)]) :=
  C10_admission_control [("a", ⟨0, 0, []⟩)] 5 "f" 1 20 ⟨"hi", some "a"⟩
    (.ok "reply") (by decide)

/-- C6: `clear_session` returns true exactly when the session existed; when
present the session is removed (so `session_exists` is false afterwards);
when absent it returns false and the store is unchanged. -/
theorem C6_clear_session_spec (st : Store) (sid : String)
    (hnd : (storeKeys st).Nodup) :
    ((SessionManager.clear_session st sid).1 = true ↔
      SessionManager.session_exists st sid = true) ∧
    (SessionManager.session_exists st sid = true →
      SessionManager.clear_session st sid = (true, eraseSession st sid) ∧
      SessionManager.session_exists
        (SessionManager.clear_session st sid).2 sid = false) ∧
    (SessionManager.session_exists st sid = false →
      SessionManager.clear_session st sid = (false, st)) := by
  cases h : (lookupSession st sid).isSome with
  | true =>
      have hcl : SessionManager.clear_session st sid = (true, eraseSession st sid) := by
        unfold SessionManager.clear_session
        rw [if_pos h]
      have hex : SessionManager.session_exists st sid = true := h
      have her : SessionManager.session_exists (eraseSession st sid) sid = false := by
        unfold SessionManager.session_exists
        rw [lookupSession_eraseSession_self st sid hnd]
        rfl
      refine ⟨by simp [hcl, hex], fun _ => ⟨hcl, by rw [hcl]; exact her⟩,
        fun hc => ?_⟩
      rw [hex] at hc; cases hc
  | false =>
      have hcl : SessionManager.clear_session st sid = (false, st) := by
        unfold SessionManager.clear_session
        rw [if_neg (by simp [h])]
      have hex : SessionManager.session_exists st sid = false := h
      refine ⟨?_, fun hc => ?_, fun _ => hcl⟩
      · simp [hcl, hex]
      · rw [hex] at hc; cases hc

/-- C6 witness: clearing the only session of a one-session store returns
true and removes it; clearing an unknown id returns false and changes
nothing. -/
theorem C6_clear_session_spec_witness :
    SessionManager.clear_session [("a", ⟨0, 0, []⟩)] "a" = (true, []) ∧
    SessionManager.session_exists
      (SessionManager.clear_session [("a", ⟨0, 0, []⟩)] "a").2 "a" = false ∧
    SessionManager.clear_session [("a", ⟨0, 0, []⟩)] "b" =
      (false, [("a", ⟨0, 0, []⟩)]) := by
  have h1 := (C6_clear_session_spec [("a", ⟨0, 0, []⟩)] "a" (by decide)).2.1
    (by decide)
  have h2 := (C6_clear_session_spec [("a", ⟨0, 0, []⟩)] "b" (by decide)).2.2
    (by decide)
  exact ⟨by simpa using h1.1, h1.2, h2⟩

/-- C4: for an existing session, `get_conversation_history` returns exactly
the most recent `min (stored count) window` messages in original insertion
order (a suffix of the stored list); for an unknown id it returns the empty
sequence and `session_exists` is false. -/
theorem C4_get_history_spec (st : Store) (window : Nat) (sid : String)
    (hw : 0 < window) :
    (∀ s, lookupSession st sid = some s →
      (SessionManager.get_conversation_history st window sid).1 =
        s.messages.drop (s.messages.length - window) ∧
      (SessionManager.get_conversation_history st window sid).1.length =
        min s.messages.length window ∧
      (SessionManager.get_conversation_history st window sid).1 <:+ s.messages) ∧
    (lookupSession st sid = none →
      (SessionManager.get_conversation_history st window sid).1 = [] ∧
      SessionManager.session_exists st sid = false) := by
  constructor
  · intro s h
    have hfst : (SessionManager.get_conversation_history st window sid).1 =
        SessionManager.pySliceLast s.messages window := by
      unfold SessionManager.get_conversation_history
      rw [h]
    refine ⟨?_, ?_, ?_⟩
    · rw [hfst]
      unfold SessionManager.pySliceLast
      rw [if_neg (by omega : ¬ window = 0)]
    · rw [hfst, length_pySliceLast s.messages hw]
    · rw [hfst]
      exact pySliceLast_suffix s.messages window
  · intro h
    constructor
    · unfold SessionManager.get_conversation_history
      rw [h]
    · unfold SessionManager.session_exists
      rw [h]
      rfl

/-- C4 witness: with window 2, a session holding three messages reads back
as its two most recent ones, and an unknown id reads back empty. -/
theorem C4_get_history_spec_witness :
    0 < 2 ∧
    ((∀ s, lookupSession [("a", ⟨0, 0, [⟨"user", "m1", 1⟩, ⟨"assistant", "m2", 2⟩,
        ⟨"user", "m3", 3⟩]⟩)] "a" = some s →
      (SessionManager.get_conversation_history [("a", ⟨0, 0, [⟨"user", "m1", 1⟩,
        ⟨"assistant", "m2", 2⟩, ⟨"user", "m3", 3⟩]⟩)] 2 "a").1 =
        s.messages.drop (s.messages.length - 2) ∧
      (SessionManager.get_conversation_history [("a", ⟨0, 0, [⟨"user", "m1", 1⟩,
        ⟨"assistant", "m2", 2⟩, ⟨"user", "m3", 3⟩]⟩)] 2 "a").1.length =
        min s.messages.length 2 ∧
      (SessionManager.get_conversation_history [("a", ⟨0, 0, [⟨"user", "m1", 1⟩,
        ⟨"assistant", "m2", 2⟩, ⟨"user", "m3", 3⟩]⟩)] 2 "a").1 <:+ s.messages) ∧
    (lookupSession [("a", ⟨0, 0, [⟨"user", "m1", 1⟩, ⟨"assistant", "m2", 2⟩,
        ⟨"user", "m3", 3⟩]⟩)] "a" = none →
      (SessionManager.get_conversation_history [("a", ⟨0, 0, [⟨"user", "m1", 1⟩,
        ⟨"assistant", "m2", 2⟩, ⟨"user", "m3", 3⟩]⟩)] 2 "a").1 = [] ∧
      SessionManager.session_exists [("a", ⟨0, 0, [⟨"user", "m1", 1⟩,
        ⟨"assistant", "m2", 2⟩, ⟨"user", "m3", 3⟩]⟩)] "a" = false)) :=
  ⟨by decide,
   C4_get_history_spec [("a", ⟨0, 0, [⟨"user", "m1", 1⟩, ⟨"assistant", "m2", 2⟩,
     ⟨"user", "m3", 3⟩]⟩)] 2 "a" (by decide)⟩

/-- C3: the sweep removes exactly the sessions whose `last_activity` is more
than `timeout` old, leaves every other session entry unchanged, and returns
the number of sessions removed. -/
theorem C3_sweep_expired_spec (st : Store) (now timeout : Nat)
    (hnd : (storeKeys st).Nodup) :
    (SessionManager.cleanup_expired_sessions st now timeout).2 =
      st.filter (fun kv => ! SessionManager.isExpired now timeout kv) ∧
    (SessionManager.cleanup_expired_sessions st now timeout).1 =
      (st.filter (SessionManager.isExpired now timeout)).length ∧
    (∀ sid s, lookupSession st sid = some s →
      lookupSession (SessionManager.cleanup_expired_sessions st now timeout).2 sid =
        if SessionManager.isExpired now timeout (sid, s) then none else some s) ∧
    (∀ sid, lookupSession st sid = none →
      lookupSession (SessionManager.cleanup_expired_sessions st now timeout).2 sid =
        none) := by
  have h2 : (SessionManager.cleanup_expired_sessions st now timeout).2 =
      st.filter (fun kv => ! SessionManager.isExpired now timeout kv) := by
    unfold SessionManager.cleanup_expired_sessions
    exact foldl_erase_filter (SessionManager.isExpired now timeout) st hnd
  refine ⟨h2, ?_, ?_, ?_⟩
  · unfold SessionManager.cleanup_expired_sessions
    simp [List.length_map]
  · intro sid s h
    rw [h2,
      lookupSession_filter_some (fun kv => ! SessionManager.isExpired now timeout kv)
        st hnd sid s h]
    by_cases hp : SessionManager.isExpired now timeout (sid, s) <;> simp [hp]
  · intro sid h
    rw [h2]
    exact lookupSession_filter_none _ st sid h

/-- C3 witness: with the clock at 20 and timeout 12, a session idle since 0
is removed and a session idle since 10 is kept, with a removal count of 1. -/
theorem C3_sweep_expired_spec_witness :
    (storeKeys [("a", ⟨0, 0, []⟩), ("b", ⟨0, 10, []⟩)]).Nodup ∧
    (SessionManager.cleanup_expired_sessions
        [("a", ⟨0, 0, []⟩), ("b", ⟨0, 10, []⟩)] 20 12).2 =
      [("a", (⟨0, 0, []⟩ : Session)), ("b", ⟨0, 10, []⟩)].filter
        (fun kv => ! SessionManager.isExpired 20 12 kv) ∧
    (SessionManager.cleanup_expired_sessions
        [("a", ⟨0, 0, []⟩), ("b", ⟨0, 10, []⟩)] 20 12).1 = 1 ∧
    lookupSession (SessionManager.cleanup_expired_sessions
        [("a", ⟨0, 0, []⟩), ("b", ⟨0, 10, []⟩)] 20 12).2 "a" = none ∧
    lookupSession (SessionManager.cleanup_expired_sessions
        [("a", ⟨0, 0, []⟩), ("b", ⟨0, 10, []⟩)] 20 12).2 "b" =
      some ⟨0, 10, []⟩ := by
  have h := C3_sweep_expired_spec [("a", ⟨0, 0, []⟩), ("b", ⟨0, 10, []⟩)] 20 12
    (by decide)
  refine ⟨by decide, h.1, ?_, ?_, ?_⟩
  · rw [h.2.1]; decide
  · have := h.2.2.1 "a" ⟨0, 0, []⟩ (by decide)
    simpa using this
  · have := h.2.2.1 "b" ⟨0, 10, []⟩ (by decide)
    simpa using this

/-- `create_session` never writes the empty-string key: every id it creates
under is either a nonempty supplied id or the generated `fresh`. -/
theorem lookupSession_create_session_empty (st : Store) (now : Nat)
    (fresh : String) (session_id : Option String) (hf : fresh ≠ "")
    (h : lookupSession st "" = none) :
    lookupSession (SessionManager.create_session st now fresh session_id).2 "" =
      none := by
  unfold SessionManager.create_session
  by_cases hc : truthy session_id = true ∧
      (lookupSession st (session_id.getD "")).isSome = true
  · rw [if_pos (by exact_mod_cast hc)]
    have hne : session_id.getD "" ≠ "" := by
      cases session_id with
      | none => simp [truthy] at hc
      | some s => simpa [truthy, Option.getD] using hc.1
    cases hl : lookupSession st (session_id.getD "") with
    | none => simpa [hl] using h
    | some s =>
        simpa [hl] using
          (lookupSession_setSession_ne st _ "" _ hne).trans h
  · rw [if_neg (by exact_mod_cast hc)]
    by_cases ht : truthy session_id = true
    · have hne : session_id.getD "" ≠ "" := by
        cases session_id with
        | none => simp [truthy] at ht
        | some s => simpa [truthy, Option.getD] using ht
      simpa [ht] using (lookupSession_setSession_ne st _ "" _ hne).trans h
    · have ht2 : truthy session_id = false := by simpa using ht
      simpa [ht2] using (lookupSession_setSession_ne st fresh "" _ hf).trans h

/-- C9: `add_message` with the empty-string id fails with a key-lookup error
instead of appending — the ensure-exists step treats `""` as an omitted id
and creates a session under the generated id, so the subsequent dict index
misses; `create_session` with `""` returns the generated id and never
creates a session whose id is the empty string. -/
theorem C9_empty_id_rejected (st : Store) (now : Nat) (fresh : String)
    (window : Nat) (msg : ChatMessage) (hf : fresh ≠ "")
    (h : lookupSession st "" = none) :
    SessionManager.add_message st now fresh window "" msg =
      .error (setSession st fresh ⟨now, now, []⟩) ∧
    lookupSession (setSession st fresh ⟨now, now, []⟩) "" = none ∧
    (SessionManager.create_session st now fresh (some "")).1 = fresh ∧
    (∀ session_id : Option String,
      lookupSession (SessionManager.create_session st now fresh session_id).2 "" =
        none) :=
  ⟨SessionManager.add_message_empty_id st now fresh window msg hf h,
   (lookupSession_setSession_ne st fresh "" ⟨now, now, []⟩ hf).trans h,
   by rw [SessionManager.create_session_falsy st now fresh (some "")
     (by simp [truthy])],
   fun session_id => lookupSession_create_session_empty st now fresh session_id hf h⟩

/-- C9 witness: on the empty store with generated id "f", appending under
`""` raises instead of appending, and `create_session ""` returns "f". -/
theorem C9_empty_id_rejected_witness :
    ("f" ≠ "") ∧ lookupSession ([] : Store) "" = none ∧
    (SessionManager.add_message [] 7 "f" 20 "" ⟨"user", "hi", 7⟩ =
      .error (setSession [] "f" ⟨7, 7, []⟩) ∧
    lookupSession (setSession [] "f" ⟨7, 7, []⟩) "" = none ∧
    (SessionManager.create_session [] 7 "f" (some "")).1 = "f" ∧
    (∀ session_id : Option String,
      lookupSession (SessionManager.create_session [] 7 "f" session_id).2 "" =
        none)) :=
  ⟨by decide, by decide,
   C9_empty_id_rejected [] 7 "f" 20 ⟨"user", "hi", 7⟩ (by decide) (by decide)⟩

/-- C1 counterexample: at the empty-string session id, `add_message` on the
empty store raises a key error and appends nothing — afterwards no session
`""` exists and `get_session_info ""` still reports none, contradicting the
claim that every call appends (creating the session when needed). -/
theorem C1_counterexample :
    SessionManager.add_message [] 0 "f" 20 "" ⟨"user", "hi", 0⟩ =
      .error [("f", ⟨0, 0, []⟩)] ∧
    SessionManager.get_session_info [("f", ⟨0, 0, []⟩)] "" = none :=
  ⟨rfl, rfl⟩

/-- C1 (amended to nonempty ids and a positive window): `add_message`
appends the message (with the given role, content and the current
timestamp) at the end of the stored history, creating the session first
when absent, and sets `last_activity` to now; when the stored length then
exceeds `2 × window` it is trimmed to exactly the most recent `window`
entries (a suffix, so oldest first discarded); the stored count reported by
`get_session_info` never exceeds `2 × window` after the call. -/
theorem C1_append_message_spec (st : Store) (now : Nat) (fresh : String)
    (window : Nat) (sid role content : String)
    (hsid : sid ≠ "") (hw : 0 < window) :
    ∃ st2, SessionManager.add_message st now fresh window sid
        ⟨role, content, now⟩ = .ok st2 ∧
      ∃ s2, lookupSession st2 sid = some s2 ∧
        s2.created_at = ((lookupSession st sid).getD ⟨now, now, []⟩).created_at ∧
        s2.last_activity = now ∧
        s2.messages =
          (if (((lookupSession st sid).getD ⟨now, now, []⟩).messages ++
                [(⟨role, content, now⟩ : ChatMessage)]).length > window * 2
           then SessionManager.pySliceLast
                  (((lookupSession st sid).getD ⟨now, now, []⟩).messages ++
                    [(⟨role, content, now⟩ : ChatMessage)]) window
           else ((lookupSession st sid).getD ⟨now, now, []⟩).messages ++
                  [(⟨role, content, now⟩ : ChatMessage)]) ∧
        ((((lookupSession st sid).getD ⟨now, now, []⟩).messages ++
            [(⟨role, content, now⟩ : ChatMessage)]).length > window * 2 →
          s2.messages.length = window ∧
          s2.messages <:+ ((lookupSession st sid).getD ⟨now, now, []⟩).messages ++
            [(⟨role, content, now⟩ : ChatMessage)]) ∧
        s2.messages.getLast? = some ⟨role, content, now⟩ ∧
        s2.messages.length ≤ window * 2 ∧
        SessionManager.get_session_info st2 sid =
          some ⟨sid, s2.created_at, now, s2.messages.length⟩ := by
  cases hl : lookupSession st sid with
  | some s =>
      rw [SessionManager.add_message_existing st now fresh window sid
        ⟨role, content, now⟩ s hl]
      refine ⟨_, rfl, _, lookupSession_setSession_self st sid _, ?_⟩
      rw [Option.getD_some]
      refine ⟨rfl, rfl, rfl, ?_, ?_, ?_, ?_⟩
      · intro hcc
        dsimp only
        rw [if_pos hcc]
        refine ⟨?_, pySliceLast_suffix _ window⟩
        rw [length_pySliceLast _ hw]
        simp at hcc ⊢
        omega
      · dsimp only
        by_cases hc : (s.messages ++ [(⟨role, content, now⟩ : ChatMessage)]).length >
            window * 2
        · rw [if_pos hc]
          exact getLast?_pySliceLast_concat s.messages _ hw
        · rw [if_neg hc]
          exact List.getLast?_concat _
      · dsimp only
        by_cases hc : (s.messages ++ [(⟨role, content, now⟩ : ChatMessage)]).length >
            window * 2
        · rw [if_pos hc, length_pySliceLast _ hw]
          omega
        · rw [if_neg hc]
          simp at hc ⊢
          omega
      · unfold SessionManager.get_session_info
        rw [lookupSession_setSession_self]
  | none =>
      rw [SessionManager.add_message_absent st now fresh window sid
        ⟨role, content, now⟩ hsid hl]
      refine ⟨_, rfl, _, lookupSession_setSession_self st sid _, ?_⟩
      rw [Option.getD_none]
      have hc : ¬ ((([] : List ChatMessage) ++
          [(⟨role, content, now⟩ : ChatMessage)]).length > window * 2) := by
        simp
        omega
      refine ⟨rfl, rfl, by rw [if_neg hc]; rfl, fun hcc => absurd hcc hc, by simp,
        by simp; omega, ?_⟩
      unfold SessionManager.get_session_info
      rw [lookupSession_setSession_self]

/-- C1 witness: with window 1, appending a third message to a two-message
session trims the stored history to the single most recent entry, and the
reported count stays within 2 × window. -/
theorem C1_append_message_spec_witness :
    ("a" ≠ "") ∧ 0 < 1 ∧
    (∃ st2, SessionManager.add_message
        [("a", ⟨0, 3, [⟨"user", "m1", 1⟩, ⟨"assistant", "m2", 2⟩]⟩)] 5 "f" 1
        "a" ⟨"user", "m3", 5⟩ = .ok st2 ∧
      ∃ s2, lookupSession st2 "a" = some s2 ∧
        s2.created_at = ((lookupSession
          [("a", ⟨0, 3, [⟨"user", "m1", 1⟩, ⟨"assistant", "m2", 2⟩]⟩)] "a").getD
          ⟨5, 5, []⟩).created_at ∧
        s2.last_activity = 5 ∧
        s2.messages =
          (if (((lookupSession
                [("a", ⟨0, 3, [⟨"user", "m1", 1⟩, ⟨"assistant", "m2", 2⟩]⟩)]
                "a").getD ⟨5, 5, []⟩).messages ++
                [(⟨"user", "m3", 5⟩ : ChatMessage)]).length > 1 * 2
           then SessionManager.pySliceLast
                  (((lookupSession
                    [("a", ⟨0, 3, [⟨"user", "m1", 1⟩, ⟨"assistant", "m2", 2⟩]⟩)]
                    "a").getD ⟨5, 5, []⟩).messages ++
                    [(⟨"user", "m3", 5⟩ : ChatMessage)]) 1
           else ((lookupSession
                  [("a", ⟨0, 3, [⟨"user", "m1", 1⟩, ⟨"assistant", "m2", 2⟩]⟩)]
                  "a").getD ⟨5, 5, []⟩).messages ++
                  [(⟨"user", "m3", 5⟩ : ChatMessage)]) ∧
        ((((lookupSession
            [("a", ⟨0, 3, [⟨"user", "m1", 1⟩, ⟨"assistant", "m2", 2⟩]⟩)]
            "a").getD ⟨5, 5, []⟩).messages ++
            [(⟨"user", "m3", 5⟩ : ChatMessage)]).length > 1 * 2 →
          s2.messages.length = 1 ∧
          s2.messages <:+ ((lookupSession
            [("a", ⟨0, 3, [⟨"user", "m1", 1⟩, ⟨"assistant", "m2", 2⟩]⟩)]
            "a").getD ⟨5, 5, []⟩).messages ++
            [(⟨"user", "m3", 5⟩ : ChatMessage)]) ∧
        s2.messages.getLast? = some ⟨"user", "m3", 5⟩ ∧
        s2.messages.length ≤ 1 * 2 ∧
        SessionManager.get_session_info st2 "a" =
          some ⟨"a", s2.created_at, 5, s2.messages.length⟩) :=
  ⟨by decide, by decide,
   C1_append_message_spec
     [("a", ⟨0, 3, [⟨"user", "m1", 1⟩, ⟨"assistant", "m2", 2⟩]⟩)] 5 "f" 1 "a"
     "user" "m3" (by decide) (by decide)⟩

/-- C2 counterexample: the empty-string id breaks the claim in both cases.
Supplied-and-absent: `create_session (some "")` on the empty store returns
the generated id "f", not "", and creates no session under "".
Supplied-and-present: with a session stored under "", `create_session
(some "")` does not touch it (its `last_activity` stays 0) and returns "f"
instead of the supplied id. -/
theorem C2_counterexample :
    ((SessionManager.create_session [] 0 "f" (some "")).1 = "f" ∧
     (SessionManager.create_session [] 0 "f" (some "")).1 ≠ "" ∧
     lookupSession (SessionManager.create_session [] 0 "f" (some "")).2 "" =
       none) ∧
    ((SessionManager.create_session [("", ⟨0, 0, []⟩)] 5 "f" (some "")).1 = "f" ∧
     (SessionManager.create_session [("", ⟨0, 0, []⟩)] 5 "f" (some "")).2 =
       [("", ⟨0, 0, []⟩), ("f", ⟨5, 5, []⟩)]) := by
  decide

theorem length_setSession_absent (st : Store) (k : String) (v : Session)
    (h : lookupSession st k = none) :
    (setSession st k v).length = st.length + 1 := by
  induction st with
  | nil => rfl
  | cons kv rest ih =>
      obtain ⟨k0, v0⟩ := kv
      by_cases h0 : k0 = k
      · rw [show lookupSession ((k0, v0) :: rest) k = some v0 from by
          simp [lookupSession, h0]] at h
        cases h
      · have h2 : lookupSession rest k = none := by
          simpa [lookupSession, h0] using h
        simp [setSession, h0, ih h2]

/-- C2 (amended to nonempty supplied ids): if a nonempty id is supplied and
present, `create_session` touches only `last_activity` (advanced to `now`,
which is ≥ the previous value whenever the clock does not run backwards),
keeps `created_at` and `messages`, and returns the same id; if a nonempty id
is supplied and absent, a session is created under exactly that id; if the
id is omitted — or is the falsy empty string — a session is created under the
generated fresh id (a genuinely new entry when the fresh id is unused) and
that id is returned; in every case the returned id is present in the
resulting store. -/
theorem C2_create_or_touch_spec (st : Store) (now : Nat) (fresh : String)
    (session_id : Option String) :
    (∀ sid s, session_id = some sid → sid ≠ "" →
      lookupSession st sid = some s → s.last_activity ≤ now →
      SessionManager.create_session st now fresh session_id =
        (sid, setSession st sid { s with last_activity := now }) ∧
      ∃ s2, lookupSession
          (SessionManager.create_session st now fresh session_id).2 sid =
            some s2 ∧
        s2.created_at = s.created_at ∧ s2.messages = s.messages ∧
        s2.last_activity = now ∧ s.last_activity ≤ s2.last_activity) ∧
    (∀ sid, session_id = some sid → sid ≠ "" → lookupSession st sid = none →
      SessionManager.create_session st now fresh session_id =
        (sid, setSession st sid ⟨now, now, []⟩)) ∧
    (truthy session_id = false → lookupSession st fresh = none →
      SessionManager.create_session st now fresh session_id =
        (fresh, setSession st fresh ⟨now, now, []⟩) ∧
      (SessionManager.create_session st now fresh session_id).2.length =
        st.length + 1) ∧
    (lookupSession (SessionManager.create_session st now fresh session_id).2
        (SessionManager.create_session st now fresh session_id).1).isSome =
      true := by
  refine ⟨?_, ?_, ?_,
    SessionManager.create_session_returns_valid st now fresh session_id⟩
  · rintro sid s rfl hsid hs hle
    rw [SessionManager.create_session_touch st now fresh sid s hsid hs]
    exact ⟨rfl, _, lookupSession_setSession_self st sid _, rfl, rfl, rfl, hle⟩
  · rintro sid rfl hsid hn
    exact SessionManager.create_session_new st now fresh sid hsid hn
  · intro ht hfr
    rw [SessionManager.create_session_falsy st now fresh session_id ht]
    exact ⟨rfl, length_setSession_absent st fresh ⟨now, now, []⟩ hfr⟩

/-- C2 witness: touching "a" advances only its `last_activity` (3 to 5);
creating supplied "b" and omitted-id sessions works as described, and the
returned id is always present. -/
theorem C2_create_or_touch_spec_witness :
    (SessionManager.create_session [("a", ⟨0, 3, []⟩)] 5 "f" (some "a") =
       ("a", [("a", ⟨0, 5, []⟩)]) ∧
     ∃ s2, lookupSession (SessionManager.create_session [("a", ⟨0, 3, []⟩)] 5 "f"
         (some "a")).2 "a" = some s2 ∧
       s2.created_at = 0 ∧ s2.messages = [] ∧ s2.last_activity = 5 ∧
       3 ≤ s2.last_activity) ∧
    SessionManager.create_session [] 5 "f" (some "b") =
      ("b", [("b", ⟨5, 5, []⟩)]) ∧
    (SessionManager.create_session [] 5 "f" none = ("f", [("f", ⟨5, 5, []⟩)]) ∧
     (SessionManager.create_session [] 5 "f" none).2.length = 0 + 1) ∧
    (lookupSession (SessionManager.create_session [] 5 "f" none).2
        (SessionManager.create_session [] 5 "f" none).1).isSome = true := by
  refine ⟨?_, ?_, ?_, ?_⟩
  · exact (C2_create_or_touch_spec [("a", ⟨0, 3, []⟩)] 5 "f" (some "a")).1
      "a" ⟨0, 3, []⟩ rfl (by decide) (by decide) (by decide)
  · exact (C2_create_or_touch_spec [] 5 "f" (some "b")).2.1
      "b" rfl (by decide) (by decide)
  · exact (C2_create_or_touch_spec [] 5 "f" none).2.2.1 (by decide) (by decide)
  · exact (C2_create_or_touch_spec [] 5 "f" none).2.2.2

/-- C5: in the chat endpoint the user message is recorded before the
external generation call and the assistant message only after a successful
response: when generation fails, the endpoint answers 500 and the final
store is exactly the store after appending the user message — the session
read back under the resolved id ends with the user message (role "user",
the request text, current timestamp) and no assistant reply follows it. -/
theorem C5_generation_failure_keeps_user_message (st : Store) (now : Nat)
    (fresh : String) (maxSessions window : Nat) (req : ChatRequest)
    (err : String)
    (hcap : SessionManager.get_active_session_count st < maxSessions)
    (hw : 0 < window) :
    ∃ st2,
      SessionManager.add_user_message
        (SessionManager.create_session st now fresh req.session_id).2 now fresh
        window (SessionManager.create_session st now fresh req.session_id).1
        req.message = .ok st2 ∧
      Routes.chat_endpoint st now fresh maxSessions window req (.error err) =
        (.httpError 500, st2) ∧
      ∃ s2, lookupSession st2
          (SessionManager.create_session st now fresh req.session_id).1 =
            some s2 ∧
        s2.messages ≠ [] ∧
        s2.messages.getLast? = some ⟨"user", req.message, now⟩ := by
  have hval :=
    SessionManager.create_session_returns_valid st now fresh req.session_id
  obtain ⟨s, hs⟩ := Option.isSome_iff_exists.mp hval
  have hadd2 : SessionManager.add_user_message
      (SessionManager.create_session st now fresh req.session_id).2 now fresh
      window (SessionManager.create_session st now fresh req.session_id).1
      req.message =
      .ok (setSession (SessionManager.create_session st now fresh req.session_id).2
        (SessionManager.create_session st now fresh req.session_id).1
        { s with
          messages := if (s.messages ++ [(⟨"user", req.message, now⟩ : ChatMessage)]).length >
              window * 2
            then SessionManager.pySliceLast
              (s.messages ++ [(⟨"user", req.message, now⟩ : ChatMessage)]) window
            else s.messages ++ [(⟨"user", req.message, now⟩ : ChatMessage)],
          last_activity := now }) :=
    SessionManager.add_message_existing _ now fresh window _
      ⟨"user", req.message, now⟩ s hs
  refine ⟨_, hadd2, ?_, ?_⟩
  · unfold Routes.chat_endpoint
    rw [if_neg (by omega : ¬ SessionManager.get_active_session_count st ≥ maxSessions)]
    simp only [get_conversation_history_snd]
    rw [hadd2]
  · refine ⟨_, lookupSession_setSession_self _ _ _, ?_, ?_⟩
    · dsimp only
      by_cases hc : (s.messages ++ [(⟨"user", req.message, now⟩ : ChatMessage)]).length >
          window * 2
      · rw [if_pos hc]
        intro hnil
        have hlen : (SessionManager.pySliceLast
            (s.messages ++ [(⟨"user", req.message, now⟩ : ChatMessage)]) window).length =
            min (s.messages ++ [(⟨"user", req.message, now⟩ : ChatMessage)]).length window :=
          length_pySliceLast _ hw
        rw [hnil] at hlen
        simp at hlen
        omega
      · rw [if_neg hc]
        simp
    · dsimp only
      by_cases hc : (s.messages ++ [(⟨"user", req.message, now⟩ : ChatMessage)]).length >
          window * 2
      · rw [if_pos hc]
        exact getLast?_pySliceLast_concat s.messages _ hw
      · rw [if_neg hc]
        exact List.getLast?_concat _

/-- C5 witness: one live session "a" under capacity 5; generation fails, the
endpoint answers 500, and the store read back under "a" ends with the user
message just recorded. -/
theorem C5_generation_failure_keeps_user_message_witness :
    SessionManager.get_active_session_count [("a", ⟨0, 3, [⟨"user", "m1", 1⟩]⟩)] < 5 ∧
    0 < 20 ∧
    (∃ st2,
      SessionManager.add_user_message
        (SessionManager.create_session [("a", ⟨0, 3, [⟨"user", "m1", 1⟩]⟩)] 9 "f"
          (some "a")).2 9 "f" 20
        (SessionManager.create_session [("a", ⟨0, 3, [⟨"user", "m1", 1⟩]⟩)] 9 "f"
          (some "a")).1 "hello" = .ok st2 ∧
      Routes.chat_endpoint [("a", ⟨0, 3, [⟨"user", "m1", 1⟩]⟩)] 9 "f" 5 20
          ⟨"hello", some "a"⟩ (.error "boom") = (.httpError 500, st2) ∧
      ∃ s2, lookupSession st2
          (SessionManager.create_session [("a", ⟨0, 3, [⟨"user", "m1", 1⟩]⟩)] 9 "f"
            (some "a")).1 = some s2 ∧
        s2.messages ≠ [] ∧
        s2.messages.getLast? = some ⟨"user", "hello", 9⟩) :=
  ⟨by decide, by decide,
   C5_generation_failure_keeps_user_message [("a", ⟨0, 3, [⟨"user", "m1", 1⟩]⟩)]
     9 "f" 5 20 ⟨"hello", some "a"⟩ "boom" (by decide) (by decide)⟩

/-! ### Timestamp invariants (C7) -/

/-- The spec invariant: `last_activity >= created_at` for every stored
session. -/
def StoreInv (st : Store) : Prop :=
  ∀ kv ∈ st, (kv.2).created_at ≤ (kv.2).last_activity

/-- The clock model: every stored `last_activity` was written at or before
the current reading `now` (`datetime.utcnow()` does not run backwards). -/
def ClockLE (st : Store) (now : Nat) : Prop :=
  ∀ kv ∈ st, (kv.2).last_activity ≤ now

/-- `created_at` is never modified: any session present before and after a
step keeps its `created_at`. -/
def CreatedPreserved (st st2 : Store) : Prop :=
  ∀ sid s s2, lookupSession st sid = some s → lookupSession st2 sid = some s2 →
    s2.created_at = s.created_at

/-- The store state after `add_message`, whether it returned normally or
raised `KeyError`. -/
def afterAdd : Except Store Store → Store
  | .ok st => st
  | .error st => st

theorem CreatedPreserved_refl (st : Store) : CreatedPreserved st st := by
  intro sid s s2 h0 h2
  rw [h0] at h2
  cases h2
  rfl

theorem StoreInv_setSession {st : Store} {k : String} {s : Session}
    (hInv : StoreInv st) (hs : s.created_at ≤ s.last_activity) :
    StoreInv (setSession st k s) := by
  intro kv hkv
  rcases mem_setSession hkv with rfl | h
  · exact hs
  · exact hInv kv h

theorem CreatedPreserved_setSession {st : Store} {k : String} {s : Session}
    (h : ∀ s0, lookupSession st k = some s0 → s.created_at = s0.created_at) :
    CreatedPreserved st (setSession st k s) := by
  intro sid s0 s2 h0 h2
  by_cases hk : k = sid
  · subst hk
    rw [lookupSession_setSession_self] at h2
    cases h2
    exact h s0 h0
  · rw [lookupSession_setSession_ne st k sid s hk, h0] at h2
    cases h2
    rfl

theorem StoreInv_eraseSession {st : Store} {k : String} (hInv : StoreInv st) :
    StoreInv (eraseSession st k) :=
  fun kv hkv => hInv kv (mem_eraseSession hkv)

theorem StoreInv_filter {st : Store} {p : String × Session → Bool}
    (hInv : StoreInv st) : StoreInv (st.filter p) :=
  fun kv hkv => hInv kv (List.mem_filter.mp hkv).1

theorem create_session_inv (st : Store) (now : Nat) (fresh : String)
    (session_id : Option String) (hInv : StoreInv st) (hclock : ClockLE st now)
    (hfresh : lookupSession st fresh = none) :
    StoreInv (SessionManager.create_session st now fresh session_id).2 ∧
    CreatedPreserved st
      (SessionManager.create_session st now fresh session_id).2 := by
  unfold SessionManager.create_session
  by_cases hc : truthy session_id = true ∧
      (lookupSession st (session_id.getD "")).isSome = true
  · rw [if_pos (by exact_mod_cast hc)]
    dsimp only
    cases hl : lookupSession st (session_id.getD "") with
    | some s =>
        dsimp only
        constructor
        · refine StoreInv_setSession hInv ?_
          have hmem := lookupSession_mem hl
          exact le_trans (hInv _ hmem) (hclock _ hmem)
        · refine CreatedPreserved_setSession fun s0 h0 => ?_
          rw [hl] at h0
          cases h0
          rfl
    | none => exact ⟨hInv, CreatedPreserved_refl st⟩
  · rw [if_neg (by exact_mod_cast hc)]
    by_cases ht : truthy session_id = true
    · have hn : lookupSession st (session_id.getD "") = none := by
        cases hli : lookupSession st (session_id.getD "") with
        | none => rfl
        | some s => exact absurd ⟨ht, by rw [hli]; rfl⟩ hc
      simp only [ht, if_true]
      constructor
      · exact StoreInv_setSession hInv (le_refl now)
      · refine CreatedPreserved_setSession fun s0 h0 => ?_
        rw [hn] at h0
        cases h0
    · have ht2 : truthy session_id = false := by simpa using ht
      simp only [ht2, Bool.false_eq_true, if_false]
      constructor
      · exact StoreInv_setSession hInv (le_refl now)
      · refine CreatedPreserved_setSession fun s0 h0 => ?_
        rw [hfresh] at h0
        cases h0

theorem add_message_inv (st : Store) (now : Nat) (fresh : String)
    (window : Nat) (sid : String) (msg : ChatMessage) (hInv : StoreInv st)
    (hclock : ClockLE st now) (hfresh : lookupSession st fresh = none)
    (hfne : fresh ≠ "") :
    StoreInv (afterAdd (SessionManager.add_message st now fresh window sid msg)) ∧
    CreatedPreserved st
      (afterAdd (SessionManager.add_message st now fresh window sid msg)) := by
  cases hl : lookupSession st sid with
  | some s =>
      rw [SessionManager.add_message_existing st now fresh window sid msg s hl]
      unfold afterAdd
      constructor
      · refine StoreInv_setSession hInv ?_
        have hmem := lookupSession_mem hl
        exact le_trans (hInv _ hmem) (hclock _ hmem)
      · refine CreatedPreserved_setSession fun s0 h0 => ?_
        rw [hl] at h0
        cases h0
        rfl
  | none =>
      by_cases hsid : sid = ""
      · subst hsid
        rw [SessionManager.add_message_empty_id st now fresh window msg hfne hl]
        unfold afterAdd
        constructor
        · exact StoreInv_setSession hInv (le_refl now)
        · refine CreatedPreserved_setSession fun s0 h0 => ?_
          rw [hfresh] at h0
          cases h0
      · rw [SessionManager.add_message_absent st now fresh window sid msg hsid hl]
        unfold afterAdd
        constructor
        · exact StoreInv_setSession hInv (le_refl now)
        · refine CreatedPreserved_setSession fun s0 h0 => ?_
          rw [hl] at h0
          cases h0

theorem clear_session_inv (st : Store) (sid : String) (hInv : StoreInv st)
    (hnd : (storeKeys st).Nodup) :
    StoreInv (SessionManager.clear_session st sid).2 ∧
    CreatedPreserved st (SessionManager.clear_session st sid).2 := by
  unfold SessionManager.clear_session
  by_cases h : (lookupSession st sid).isSome = true
  · rw [if_pos h]
    constructor
    · exact StoreInv_eraseSession hInv
    · intro sid2 s0 s2 h0 h2
      by_cases hk : sid = sid2
      · subst hk
        rw [lookupSession_eraseSession_self st sid hnd] at h2
        cases h2
      · rw [lookupSession_eraseSession_ne st sid sid2 hk, h0] at h2
        cases h2
        rfl
  · rw [if_neg h]
    exact ⟨hInv, CreatedPreserved_refl st⟩

theorem cleanup_expired_sessions_inv (st : Store) (now timeout : Nat)
    (hInv : StoreInv st) (hnd : (storeKeys st).Nodup) :
    StoreInv (SessionManager.cleanup_expired_sessions st now timeout).2 ∧
    CreatedPreserved st
      (SessionManager.cleanup_expired_sessions st now timeout).2 := by
  have heq : (SessionManager.cleanup_expired_sessions st now timeout).2 =
      st.filter (fun kv => ! SessionManager.isExpired now timeout kv) := by
    unfold SessionManager.cleanup_expired_sessions
    exact foldl_erase_filter _ st hnd
  rw [heq]
  constructor
  · exact StoreInv_filter hInv
  · intro sid s0 s2 h0 hf2
    rw [lookupSession_filter_some _ st hnd sid s0 h0] at hf2
    by_cases hp : (! SessionManager.isExpired now timeout (sid, s0)) = true
    · rw [if_pos hp] at hf2
      cases hf2
      rfl
    · rw [if_neg hp] at hf2
      cases hf2

/-- C7: under the clock model (no stored `last_activity` is in the future)
and the dict invariants (unique keys, unused nonempty generated id), every
store operation — create/touch, append, read history, clear, sweep —
preserves `created_at ≤ last_activity` for every stored session and never
modifies the `created_at` of a session that survives the operation. -/
theorem C7_timestamp_invariants (st : Store) (now : Nat) (fresh : String)
    (hInv : StoreInv st) (hclock : ClockLE st now)
    (hnd : (storeKeys st).Nodup) (hfresh : lookupSession st fresh = none)
    (hfne : fresh ≠ "") :
    (∀ session_id : Option String,
      StoreInv (SessionManager.create_session st now fresh session_id).2 ∧
      CreatedPreserved st
        (SessionManager.create_session st now fresh session_id).2) ∧
    (∀ window sid msg,
      StoreInv (afterAdd (SessionManager.add_message st now fresh window sid msg)) ∧
      CreatedPreserved st
        (afterAdd (SessionManager.add_message st now fresh window sid msg))) ∧
    (∀ window sid,
      StoreInv (SessionManager.get_conversation_history st window sid).2 ∧
      CreatedPreserved st
        (SessionManager.get_conversation_history st window sid).2) ∧
    (∀ sid,
      StoreInv (SessionManager.clear_session st sid).2 ∧
      CreatedPreserved st (SessionManager.clear_session st sid).2) ∧
    (∀ timeout,
      StoreInv (SessionManager.cleanup_expired_sessions st now timeout).2 ∧
      CreatedPreserved st
        (SessionManager.cleanup_expired_sessions st now timeout).2) :=
  ⟨fun session_id => create_session_inv st now fresh session_id hInv hclock hfresh,
   fun window sid msg =>
     add_message_inv st now fresh window sid msg hInv hclock hfresh hfne,
   fun window sid => by
     rw [get_conversation_history_snd st window sid]
     exact ⟨hInv, CreatedPreserved_refl st⟩,
   fun sid => clear_session_inv st sid hInv hnd,
   fun timeout => cleanup_expired_sessions_inv st now timeout hInv hnd⟩

/-- C7 witness: all hypotheses hold for a concrete two-session store at
clock 9 with generated id "f", so all five operations preserve the
timestamp invariants there. -/
theorem C7_timestamp_invariants_witness :
    StoreInv [("a", ⟨0, 3, []⟩), ("b", ⟨2, 7, []⟩)] ∧
    ClockLE [("a", ⟨0, 3, []⟩), ("b", ⟨2, 7, []⟩)] 9 ∧
    (storeKeys [("a", ⟨0, 3, []⟩), ("b", ⟨2, 7, []⟩)]).Nodup ∧
    lookupSession [("a", ⟨0, 3, []⟩), ("b", ⟨2, 7, []⟩)] "f" = none ∧
    ("f" ≠ "") ∧
    ((∀ session_id : Option String,
      StoreInv (SessionManager.create_session
        [("a", ⟨0, 3, []⟩), ("b", ⟨2, 7, []⟩)] 9 "f" session_id).2 ∧
      CreatedPreserved [("a", ⟨0, 3, []⟩), ("b", ⟨2, 7, []⟩)]
        (SessionManager.create_session
          [("a", ⟨0, 3, []⟩), ("b", ⟨2, 7, []⟩)] 9 "f" session_id).2) ∧
    (∀ window sid msg,
      StoreInv (afterAdd (SessionManager.add_message
        [("a", ⟨0, 3, []⟩), ("b", ⟨2, 7, []⟩)] 9 "f" window sid msg)) ∧
      CreatedPreserved [("a", ⟨0, 3, []⟩), ("b", ⟨2, 7, []⟩)]
        (afterAdd (SessionManager.add_message
          [("a", ⟨0, 3, []⟩), ("b", ⟨2, 7, []⟩)] 9 "f" window sid msg))) ∧
    (∀ window sid,
      StoreInv (SessionManager.get_conversation_history
        [("a", ⟨0, 3, []⟩), ("b", ⟨2, 7, []⟩)] window sid).2 ∧
      CreatedPreserved [("a", ⟨0, 3, []⟩), ("b", ⟨2, 7, []⟩)]
        (SessionManager.get_conversation_history
          [("a", ⟨0, 3, []⟩), ("b", ⟨2, 7, []⟩)] window sid).2) ∧
    (∀ sid,
      StoreInv (SessionManager.clear_session
        [("a", ⟨0, 3, []⟩), ("b", ⟨2, 7, []⟩)] sid).2 ∧
      CreatedPreserved [("a", ⟨0, 3, []⟩), ("b", ⟨2, 7, []⟩)]
        (SessionManager.clear_session
          [("a", ⟨0, 3, []⟩), ("b", ⟨2, 7, []⟩)] sid).2) ∧
    (∀ timeout,
      StoreInv (SessionManager.cleanup_expired_sessions
        [("a", ⟨0, 3, []⟩), ("b", ⟨2, 7, []⟩)] 9 timeout).2 ∧
      CreatedPreserved [("a", ⟨0, 3, []⟩), ("b", ⟨2, 7, []⟩)]
        (SessionManager.cleanup_expired_sessions
          [("a", ⟨0, 3, []⟩), ("b", ⟨2, 7, []⟩)] 9 timeout).2)) :=
  ⟨by unfold StoreInv; decide, by unfold ClockLE; decide, by decide, by decide,
   by decide,
   C7_timestamp_invariants [("a", ⟨0, 3, []⟩), ("b", ⟨2, 7, []⟩)] 9 "f"
     (by unfold StoreInv; decide) (by unfold ClockLE; decide) (by decide)
     (by decide) (by decide)⟩
